import Mathlib

/-!
Verification of the natural-language step interpreter of
`bug-automation-mcp` (`src/playwright_parser.py`).

The Python class `PlaywrightStepParser` is shallowly embedded below.
Strings are modelled by `String`/`List Char`; the Playwright page and
element handles are modelled by the `Page`/`Elem` records, with fallible
collaborator calls returning `Except String`; the timing and navigation
side effects are recorded in an explicit `Effect` trace.  The regular
expressions of the source are implemented character by character with
the leftmost-match greedy semantics of Python's `re.search` (for these
particular patterns backtracking can never change the outcome, so the
greedy scan is exact).
-/

/-- Characters accepted by Python's `\s` class (and by `str.strip()`). -/
def isSpaceCh (c : Char) : Bool :=
  c == ' ' || c == '\t' || c == '\n' || c == '\r' || c == '\x0b' || c == '\x0c'

/-- The single-quote character, written numerically. -/
def squoteCh : Char := Char.ofNat 39

/-- Quote characters recognised by the source's `["\']` regex classes. -/
def isQuoteCh (c : Char) : Bool := c == '"' || c == squoteCh

/-- Python `str.lower()` (ASCII case folding suffices for every step here). -/
def lowerStr (s : String) : String := String.mk (s.toList.map Char.toLower)

/-- Substring occurrence on character lists: Python's `needle in hay`. -/
def listHas (needle : List Char) : List Char → Bool
  | [] => needle.isEmpty
  | c :: t => needle.isPrefixOf (c :: t) || listHas needle t

/-- Python's `needle in hay` on strings. -/
def strContains (hay needle : String) : Bool := listHas needle.toList hay.toList

/-- Python's `hay.startswith(pre)`. -/
def strStarts (hay pre : String) : Bool := pre.toList.isPrefixOf hay.toList

/-- Keyword-list test of one classifier rule: Python
`any(keyword in hay for keyword in kws)`. -/
def anyKw (hay : String) (kws : List String) : Bool :=
  kws.any (fun k => strContains hay k)

/-- The suffix of `l` that follows the first occurrence of `sep`
(`none` when `sep` does not occur). -/
def afterFirst (sep : List Char) : List Char → Option (List Char)
  | [] => if sep.isEmpty then some [] else none
  | c :: t =>
    if sep.isPrefixOf (c :: t) then some ((c :: t).drop sep.length)
    else afterFirst sep t

/-- The prefix of `l` that precedes the next occurrence of `sep`. -/
def upToNext (sep : List Char) : List Char → List Char
  | [] => []
  | c :: t =>
    if sep.isPrefixOf (c :: t) && !sep.isEmpty then []
    else c :: upToNext sep t

/-- Python `hay.split(sep)[1]`: the segment between the first and second
occurrences of `sep` (when `sep` occurs at all). -/
def part1 (sep l : List Char) : Option (List Char) :=
  (afterFirst sep l).map (upToNext sep)

/-- Python `str.strip()` on a character list. -/
def stripSpaces (l : List Char) : List Char :=
  ((l.dropWhile isSpaceCh).reverse.dropWhile isSpaceCh).reverse

/-- Python `str.strip('"\'')` on a character list. -/
def stripQuotes (l : List Char) : List Char :=
  ((l.dropWhile isQuoteCh).reverse.dropWhile isQuoteCh).reverse

/-- Python `char in s` for a single character. -/
def containsCh (s : String) (c : Char) : Bool := s.toList.contains c

/-- Python re.search of the pattern `["\']([^"\']+)["\']`, group 1: the leftmost
run of one or more non-quote characters enclosed by two (not necessarily
matching) quote characters. -/
def firstQuoted : List Char → Option (List Char)
  | [] => none
  | c :: t =>
    if isQuoteCh c then
      let run := t.takeWhile (fun d => !isQuoteCh d)
      match t.drop run.length with
      | d :: _ =>
        if run = [] then firstQuoted t
        else if isQuoteCh d then some run
        else firstQuoted t
      | [] => firstQuoted t
    else firstQuoted t

/-- String wrapper for `firstQuoted`; this one regular expression is shared
by selector extraction, the input value, the select option value and the
expected verification text. -/
def firstQuotedS (s : String) : Option String :=
  (firstQuoted s.toList).map String.mk

/-- Digit run to a number, as Python `int` on a decimal string. -/
def natOfDigits (ds : List Char) : Nat :=
  ds.foldl (fun n c => n * 10 + (c.toNat - 48)) 0

/-- Identifier characters of the source's `[a-zA-Z0-9_-]` class. -/
def idChar (c : Char) : Bool := c.isAlphanum || c == '_' || c == '-'

/-- Python re.search of the pattern `#([a-zA-Z0-9_-]+)`, returning group 1. -/
def hashScan : List Char → Option (List Char)
  | [] => none
  | c :: t =>
    if c == '#' then
      let run := t.takeWhile idChar
      if run = [] then hashScan t else some run
    else hashScan t

/-- Python re.search of the dot-class pattern, returning group 1. -/
def dotScan : List Char → Option (List Char)
  | [] => none
  | c :: t =>
    if c == '.' then
      let run := t.takeWhile idChar
      if run = [] then dotScan t else some run
    else dotScan t

/-- Characters allowed in the identifier group of the element-type pattern:
the `[^"\'\s]` class. -/
def identCh (c : Char) : Bool := !isQuoteCh c && !isSpaceCh c

/-- Relation words of the element-type pattern `(called|labeled|named|with)`.
Their first letters are pairwise distinct, so ordered alternation is
equivalent to `find?`. -/
def relWords : List (List Char) :=
  ["called".toList, "labeled".toList, "named".toList, "with".toList]

/-- Matches `\s+(called|labeled|named|with)\s+["\']?([^"\'\s]+)["\']?` at the
beginning of `rest`, returning group 2. -/
def typedAfter (rest : List Char) : Option (List Char) :=
  if (rest.takeWhile isSpaceCh).isEmpty then none
  else
    let r1 := rest.dropWhile isSpaceCh
    match relWords.find? (fun w => w.isPrefixOf r1) with
    | none => none
    | some w =>
      let r2 := r1.drop w.length
      if (r2.takeWhile isSpaceCh).isEmpty then none
      else
        let r3 := r2.dropWhile isSpaceCh
        let r4 := match r3 with
          | c :: t => if isQuoteCh c then t else r3
          | [] => r3
        let idr := r4.takeWhile identCh
        if idr = [] then none else some idr

/-- Leftmost occurrence of `etype` followed by a successful `typedAfter`
match: `re.search(f'{etype}\\s+(called|…)\\s+…', step_lower)`. -/
def typedScan (etype : List Char) : List Char → Option (List Char)
  | [] => none
  | c :: t =>
    if etype.isPrefixOf (c :: t) then
      match typedAfter ((c :: t).drop etype.length) with
      | some idr => some idr
      | none => typedScan etype t
    else typedScan etype t

/-- Element-type keywords tried, in source order, by selector strategy 2. -/
def element_types : List String :=
  ["button", "link", "input", "field", "checkbox", "radio"]

/-- Selector strategy 2: element type plus relation word plus identifier,
returning the composite `type:has-text("identifier")` locator. -/
def typedStrategy (step : String) : Option String :=
  element_types.findSome? (fun et =>
    if strContains (lowerStr step) et then
      match typedScan et.toList (lowerStr step).toList with
      | some idr => some (et ++ ":has-text(\"" ++ String.mk idr ++ "\")")
      | none => none
    else none)

/-- Selector strategy 3 on the original-case step. -/
def hashStrategy (step : String) : Option String :=
  (hashScan step.toList).map String.mk

/-- Selector strategy 4 on the original-case step. -/
def classStrategy (step : String) : Option String :=
  (dotScan step.toList).map String.mk

/-- Prepositions tried, in source order, by selector strategy 5. -/
def prepositions : List String := ["on the", "on", "into the", "into", "with", "at"]

/-- Selector strategy 5: text after a space-delimited preposition,
whitespace- then quote-stripped, as a `text=` locator when non-empty. -/
def prepStrategy (step : String) : Option String :=
  prepositions.findSome? (fun prep =>
    let needle := " " ++ prep ++ " "
    if strContains (lowerStr step) needle then
      let seg := (part1 needle.toList (lowerStr step).toList).getD []
      let ps := stripQuotes (stripSpaces seg)
      if ps = [] then none else some ("text=" ++ String.mk ps)
    else none)

/-- The method `_extract_selector`, translated return by return. -/
def extract_selector (step : String) : String :=
  match firstQuotedS step with
  | some text => "text=" ++ text
  | none =>
    match typedStrategy step with
    | some r => r
    | none =>
      match hashStrategy step with
      | some idr => "#" ++ idr
      | none =>
        match classStrategy step with
        | some cls => "." ++ cls
        | none =>
          match prepStrategy step with
          | some r => r
          | none => ""

/-- The five extraction strategies in the order stated by the spec. -/
def locatorStrategies : List (String → Option String) :=
  [ fun s => (firstQuotedS s).map (fun text => "text=" ++ text)
  , typedStrategy
  , fun s => (hashStrategy s).map (fun idr => "#" ++ idr)
  , fun s => (classStrategy s).map (fun cls => "." ++ cls)
  , prepStrategy ]

/-- Modelled from the spec's words in section 4.2: try the five strategies
in strict order and return the first non-empty result, else empty. -/
def extractLocatorSpec (step : String) : String :=
  (locatorStrategies.findSome? (fun f => f step)).getD ""

/-- Duration unit alternatives of the wait pattern, in alternation order. -/
def unitAlts : List (List Char) :=
  ["second".toList, "seconds".toList, "ms".toList, "millisecond".toList]

/-- Python re.search of `(\d+)\s*(second|seconds|ms|millisecond)`, returning the
pair (group 1 digits, group 2 unit).  Python's ordered alternation matches
`second` at the text `seconds`, leaving the final `s` unconsumed. -/
def timeSearch : List Char → Option (List Char × List Char)
  | [] => none
  | c :: t =>
    if c.isDigit then
      let ds := (c :: t).takeWhile Char.isDigit
      let rest := ((c :: t).dropWhile Char.isDigit).dropWhile isSpaceCh
      match unitAlts.find? (fun u => u.isPrefixOf rest) with
      | some u => some (ds, u)
      | none => timeSearch t
    else timeSearch t

/-- String wrapper for `timeSearch`: the numeric duration and unit text. -/
def timeSearchS (s : String) : Option (Nat × String) :=
  (timeSearch s.toList).map (fun r => (natOfDigits r.1, String.mk r.2))

/-- Python re.search of `https?://[^\s]+`, returning the whole match. -/
def urlSearch : List Char → Option (List Char)
  | [] => none
  | c :: t =>
    if "https://".toList.isPrefixOf (c :: t) then
      let run := ((c :: t).drop 8).takeWhile (fun d => !isSpaceCh d)
      if run = [] then urlSearch t else some ("https://".toList ++ run)
    else if "http://".toList.isPrefixOf (c :: t) then
      let run := ((c :: t).drop 7).takeWhile (fun d => !isSpaceCh d)
      if run = [] then urlSearch t else some ("http://".toList ++ run)
    else urlSearch t

/-- String wrapper for `urlSearch`. -/
def urlSearchS (s : String) : Option String :=
  (urlSearch s.toList).map String.mk

/-- A resolved DOM node handle as the interpreter observes it:
its visibility state and its text content (`None` possible). -/
structure Elem where
  visible : Bool
  text : Option String
deriving Repr, DecidableEq

/-- The live page collaborator.  `query` is `page.locator(sel)` observed
through `.first`/`.count()` (a raised lookup error is `.error`);
`selectOption` is `page.select_option` (resolution included, as in the
source); `gotoResult` tells whether `page.goto(url)` raises; `waitSel`
tells whether `page.wait_for_selector(sel, timeout=10000)` succeeds;
`shot` is the byte string produced by `page.screenshot()`. -/
structure Page where
  query : String → Except String (List Elem)
  selectOption : String → String → Except String Unit
  gotoResult : String → Except String Unit
  waitSel : String → Bool
  shot : List Nat

/-- The uniform result dictionary `{'success', 'message', 'screenshot'}`. -/
structure ExecutionResult where
  success : Bool
  message : String
  screenshot : Option (List Nat)
deriving Repr, DecidableEq

/-- Blocking side effects the interpreter requests from the page. -/
inductive Effect where
  | goto (url : String)
  | sleep (ms : Nat)
deriving Repr, DecidableEq

/-- One strategy attempt of `_find_element`: `page.locator(sel).first` with
`count() > 0`, any raised error swallowed into `none`. -/
def tryQuery (p : Page) (sel : String) : Option Elem :=
  match p.query sel with
  | .ok (e :: _) => some e
  | _ => none

/-- Structural marker characters that disqualify the text fallbacks. -/
def structural_chars : List Char := ['#', '.', '[', '>', ' ']

/-- The six text-based fallback selectors of `_find_element`, in order. -/
def fallback_selectors (selector : String) : List String :=
  [ "button:has-text(\"" ++ selector ++ "\")"
  , "a:has-text(\"" ++ selector ++ "\")"
  , "text=" ++ selector
  , "[aria-label*=\"" ++ selector ++ "\" i]"
  , "[placeholder*=\"" ++ selector ++ "\" i]"
  , "[title*=\"" ++ selector ++ "\" i]" ]

/-- The method `_find_element`, translated branch by branch. -/
def find_element (p : Page) (selector : String) : Option Elem :=
  match p.query selector with
  | .ok (e :: _) => some e
  | _ =>
    if structural_chars.any (fun c => containsCh selector c) then none
    else (fallback_selectors selector).findSome? (tryQuery p)

/-- Modelled from the spec's words in section 4.3: the verbatim query
followed, for plain-text locators only, by the ordered fallback list;
the first strategy with at least one match wins, errors count as
no match. -/
def resolveSpec (p : Page) (selector : String) : Option Elem :=
  (selector ::
    (if structural_chars.any (fun c => containsCh selector c) then []
     else fallback_selectors selector)).findSome? (tryQuery p)

/-- Scheme completion of the keyword-split URL recovery: prepend
`https://` unless the text already starts with `http`. -/
def withScheme (url : String) : String :=
  if strStarts url "http" then url else "https://" ++ url

/-- One iteration of the keyword loop of `_handle_navigation`: when `kw` occurs
in the lowered step, the text after its first occurrence, stripped and
scheme-completed. -/
def kwUrl (step kw : String) : Option String :=
  if strContains (lowerStr step) kw then
    some (withScheme (String.mk (stripSpaces ((part1 kw.toList (lowerStr step).toList).getD []))))
  else none

/-- The keyword-split URL recovery of `_handle_navigation` (the `for`/`else`
loop over `to`, `visit`, `open`). -/
def navKwSplit (step : String) : Option String :=
  ["to", "visit", "open"].findSome? (kwUrl step)

/-- The navigation tail of `_handle_navigation` once a URL is in hand:
`page.goto(url)` (which may raise) followed by a screenshot. -/
def navGoto (p : Page) (url : String) : Except String ExecutionResult × List Effect :=
  match p.gotoResult url with
  | .ok _ => (.ok ⟨true, "Navigated to " ++ url, some p.shot⟩, [Effect.goto url])
  | .error e => (.error e, [Effect.goto url])

/-- The method `_handle_navigation`. -/
def handle_navigation (p : Page) (step : String) : Except String ExecutionResult × List Effect :=
  match urlSearchS step with
  | some url => navGoto p url
  | none =>
    match navKwSplit step with
    | some url => navGoto p url
    | none =>
      (.ok ⟨false, "Could not extract URL from: " ++ step, none⟩, [])

/-- The method `_handle_click`. -/
def handle_click (p : Page) (step : String) : ExecutionResult :=
  let selector := extract_selector step
  if selector = "" then ⟨false, "Could not extract selector from: " ++ step, none⟩
  else
    match find_element p selector with
    | some _ => ⟨true, "Clicked on " ++ selector, some p.shot⟩
    | none => ⟨false, "Could not find element: " ++ selector, some p.shot⟩

/-- The method `_handle_input`. -/
def handle_input (p : Page) (step : String) : ExecutionResult :=
  let text := (firstQuotedS step).getD ""
  let selector := extract_selector step
  if selector = "" then ⟨false, "Could not extract selector from: " ++ step, none⟩
  else
    match find_element p selector with
    | some _ => ⟨true, "Entered \"" ++ text ++ "\" into " ++ selector, some p.shot⟩
    | none => ⟨false, "Could not find input element: " ++ selector, some p.shot⟩

/-- The method `_handle_select`: the dropdown-selection call is
wrapped in its own `try`/`except`, so an operation error is reported as a
select-specific failure with the original message and a screenshot. -/
def handle_select (p : Page) (step : String) : ExecutionResult :=
  let option := (firstQuotedS step).getD ""
  let selector := extract_selector step
  if selector = "" then ⟨false, "Could not extract selector from: " ++ step, none⟩
  else
    match p.selectOption selector option with
    | .ok _ => ⟨true, "Selected \"" ++ option ++ "\" from " ++ selector, some p.shot⟩
    | .error e => ⟨false, "Could not select option: " ++ e, some p.shot⟩

/-- The method `_handle_wait`.  Note the missing `return`: when
neither a selector nor a duration pattern is found the Python function
falls off its end and yields `None`, modelled by the `none` result. -/
def handle_wait (p : Page) (step : String) : Option ExecutionResult × List Effect :=
  let selector := extract_selector step
  if selector = "" then
    match timeSearchS (lowerStr step) with
    | some (duration, unit) =>
      let ms := if strContains unit "ms" || strContains unit "millisecond"
                then duration else duration * 1000
      (some ⟨true, "Waited for " ++ toString duration ++ " " ++ unit, none⟩, [Effect.sleep ms])
    | none => (none, [])
  else
    if p.waitSel selector then
      (some ⟨true, "Element " ++ selector ++ " appeared", none⟩, [])
    else
      (some ⟨false, "Element " ++ selector ++ " did not appear", some p.shot⟩, [])

/-- Visibility of an optional element: `element.is_visible() if element else False`. -/
def visibleOf : Option Elem → Bool
  | some e => e.visible
  | none => false

/-- The negation test of the visibility sub-mode. -/
def negWordIn (sl : String) : Bool :=
  strContains sl "not" || strContains sl "hidden" || strContains sl "invisible"

/-- The visibility-mode trigger of `_handle_verification`. -/
def visModeIn (sl : String) : Bool :=
  strContains sl "visible" || strContains sl "displayed" || strContains sl "shown"

/-- The text-mode trigger of `_handle_verification`. -/
def textModeIn (sl : String) : Bool :=
  strContains sl "contains" || strContains sl "text" || strContains sl "says"

/-- Python rendering of a possibly-`None` string inside an f-string. -/
def pyStr : Option String → String
  | none => "None"
  | some s => s

/-- The trailing generic-existence section of `_handle_verification`,
reached when neither sub-mode (a) nor (b) produced a result. -/
def verifyGeneric (p : Page) (step : String) : ExecutionResult :=
  let selector := extract_selector step
  if selector = "" then ⟨false, "Could not parse verification: " ++ step, some p.shot⟩
  else
    match find_element p selector with
    | some _ => ⟨true, "Verified element " ++ selector ++ " exists", some p.shot⟩
    | none => ⟨false, "Element " ++ selector ++ " not found", some p.shot⟩

/-- The method `_handle_verification`. -/
def handle_verification (p : Page) (step : String) : ExecutionResult :=
  let sl := lowerStr step
  if visModeIn sl then
    let selector := extract_selector step
    if selector = "" then verifyGeneric p step
    else
      let element := find_element p selector
      let is_visible := visibleOf element
      let expecting_not_visible := negWordIn sl
      if (is_visible && !expecting_not_visible) || (!is_visible && expecting_not_visible) then
        ⟨true, "Verified " ++ selector ++ " visibility", some p.shot⟩
      else
        ⟨false, "Verification failed for " ++ selector ++ " visibility", some p.shot⟩
  else if textModeIn sl then
    let expected_text := (firstQuotedS step).getD ""
    let selector := extract_selector step
    if selector ≠ "" ∧ expected_text ≠ "" then
      match find_element p selector with
      | some element =>
        let actual_text := element.text
        if strContains (lowerStr (actual_text.getD "")) (lowerStr expected_text) then
          ⟨true, "Verified text \"" ++ expected_text ++ "\" in " ++ selector, some p.shot⟩
        else
          ⟨false, "Text verification failed. Expected \"" ++ expected_text ++
            "\", got \"" ++ pyStr actual_text ++ "\"", some p.shot⟩
      | none => verifyGeneric p step
    else verifyGeneric p step
  else verifyGeneric p step

/-- The method `_handle_scroll`. -/
def handle_scroll (p : Page) (step : String) : ExecutionResult :=
  if strContains (lowerStr step) "bottom" then ⟨true, "Scrolled to bottom", some p.shot⟩
  else if strContains (lowerStr step) "top" then ⟨true, "Scrolled to top", some p.shot⟩
  else
    let selector := extract_selector step
    if selector ≠ "" then
      match find_element p selector with
      | some _ => ⟨true, "Scrolled to " ++ selector, some p.shot⟩
      | none => ⟨false, "Element " ++ selector ++ " not found for scrolling", some p.shot⟩
    else ⟨true, "Scrolled down", some p.shot⟩

/-- The method `_handle_hover`. -/
def handle_hover (p : Page) (step : String) : ExecutionResult :=
  let selector := extract_selector step
  if selector = "" then ⟨false, "Could not extract selector from: " ++ step, none⟩
  else
    match find_element p selector with
    | some _ => ⟨true, "Hovered over " ++ selector, some p.shot⟩
    | none => ⟨false, "Could not find element: " ++ selector, some p.shot⟩

/-- The nine action families of the dispatcher. -/
inductive ActionKind where
  | navigate | click | input | select | wait | verify | scroll | hover | unrecognized
deriving Repr, DecidableEq

/-- The navigation rule of the classifier chain. -/
def navTest (sl : String) : Bool := anyKw sl ["navigate to", "go to", "visit", "open"]

/-- The click rule. -/
def clickTest (sl : String) : Bool := anyKw sl ["click", "press", "tap"]

/-- The input rule. -/
def inputTest (sl : String) : Bool := anyKw sl ["type", "enter", "fill", "input"]

/-- The select rule, guarded by a co-occurring `dropdown` or `from`. -/
def selectTest (sl : String) : Bool :=
  strContains sl "select" && (strContains sl "dropdown" || strContains sl "from")

/-- The wait rule. -/
def waitTest (sl : String) : Bool := anyKw sl ["wait for", "wait until"]

/-- The verification rule. -/
def verifyTest (sl : String) : Bool :=
  anyKw sl ["verify", "check", "assert", "ensure", "confirm"]

/-- Python `step.lower().strip()`, the text the classifier keywords are tested on. -/
def step_lower_of (step : String) : String :=
  String.mk (stripSpaces (lowerStr step).toList)

/-- The `if`/`elif` keyword chain of `execute_step`, as a total
classification function on the lower-cased, stripped step. -/
def classify (step : String) : ActionKind :=
  let step_lower := step_lower_of step
  if navTest step_lower then .navigate
  else if clickTest step_lower then .click
  else if inputTest step_lower then .input
  else if selectTest step_lower then .select
  else if waitTest step_lower then .wait
  else if verifyTest step_lower then .verify
  else if strContains step_lower "scroll" then .scroll
  else if strContains step_lower "hover" then .hover
  else .unrecognized

/-- The classifier rules in the order stated by the spec. -/
def rulesSpec : List ((String → Bool) × ActionKind) :=
  [ (navTest, .navigate), (clickTest, .click), (inputTest, .input)
  , (selectTest, .select), (waitTest, .wait), (verifyTest, .verify)
  , (fun sl => strContains sl "scroll", .scroll)
  , (fun sl => strContains sl "hover", .hover) ]

/-- Modelled from the spec's words in section 4.1: the first matching rule
wins, `Unrecognized` is the catch-all. -/
def classifySpec (step : String) : ActionKind :=
  (rulesSpec.findSome? (fun r =>
    if r.1 (step_lower_of step) then some r.2 else none)).getD .unrecognized

/-- The public method `execute_step`: dispatch on the keyword chain with
the surrounding `try`/`except` that converts any raised error into a
generic failure result carrying a screenshot.  The `none` first component
models Python's implicit `None` return. -/
def execute_step (p : Page) (step : String) : Option ExecutionResult × List Effect :=
  match classify step with
  | .navigate =>
    match handle_navigation p step with
    | (.ok r, fx) => (some r, fx)
    | (.error e, fx) =>
      (some ⟨false, "Error executing step \"" ++ step ++ "\": " ++ e, some p.shot⟩, fx)
  | .click => (some (handle_click p step), [])
  | .input => (some (handle_input p step), [])
  | .select => (some (handle_select p step), [])
  | .wait => handle_wait p step
  | .verify => (some (handle_verification p step), [])
  | .scroll => (some (handle_scroll p step), [])
  | .hover => (some (handle_hover p step), [])
  | .unrecognized => (some ⟨false, "Unable to parse step: " ++ step, none⟩, [])

/-- A page on which every lookup yields no match and every operation
succeeds (an empty document). -/
def emptyPage : Page where
  query := fun _ => .ok []
  selectOption := fun _ _ => .ok ()
  gotoResult := fun _ => .ok ()
  waitSel := fun _ => false
  shot := [9, 9, 9]

/-- The element carrying the welcome banner text. -/
def welcomeElem : Elem := ⟨true, some "Welcome, Bob"⟩

/-- A page whose every lookup resolves to the welcome banner element. -/
def welcomePage : Page where
  query := fun _ => .ok [welcomeElem]
  selectOption := fun _ _ => .ok ()
  gotoResult := fun _ => .ok ()
  waitSel := fun _ => true
  shot := [1, 2, 3]

/-- A page whose dropdown-selection operation raises. -/
def failSelectPage : Page where
  query := fun _ => .ok [welcomeElem]
  selectOption := fun _ _ => .error "Timeout 30000ms exceeded"
  gotoResult := fun _ => .ok ()
  waitSel := fun _ => true
  shot := [4, 5]

/-- The button element found by the fallback lookup below. -/
def saveElem : Elem := ⟨true, some "Save"⟩

/-- A page on which the verbatim lookup for `Save` raises, while the
button-with-text fallback strategy matches. -/
def flakyPage : Page where
  query := fun sel =>
    if sel = "Save" then .error "strict mode violation"
    else if sel = "button:has-text(\"Save\")" then .ok [saveElem]
    else .ok []
  selectOption := fun _ _ => .ok ()
  gotoResult := fun _ => .ok ()
  waitSel := fun _ => false
  shot := [7]

/-- A single-quote character as a one-character string. -/
def squoteStr : String := String.mk [squoteCh]

/-- The step `Enter "it's" into the username field`, built without a
quote-character literal. -/
def apostropheStep : String := "Enter \"it" ++ squoteStr ++ "s\" into the username field"

/-- A step whose quoted value opens with a single quote and closes with a
double quote. -/
def mixedQuoteStep : String := "Click " ++ squoteStr ++ "Save\" now"

/-- The step used to refute the literal reading of claim C2. -/
def cvStep : String := "go to the page, click the button and verify the result"

/-- Every element kept by `takeWhile` satisfies the predicate. -/
theorem takeWhile_all_self {α : Type} (p : α → Bool) :
    ∀ (l : List α), (l.takeWhile p).all p = true := by
  intro l
  induction l with
  | nil => rfl
  | cons a t ih =>
    rw [List.takeWhile_cons]
    cases hp : p a
    · simp
    · simp [hp, ih]

/-- Soundness of the shared quoted-literal pattern: a successful match is a
non-empty run of characters none of which is a quote. -/
theorem firstQuoted_sound : ∀ (l r : List Char), firstQuoted l = some r →
    r ≠ [] ∧ r.all (fun c => !isQuoteCh c) = true := by
  intro l
  induction l with
  | nil => intro r h; simp [firstQuoted] at h
  | cons c t ih =>
    intro r h
    simp only [firstQuoted] at h
    split at h
    · split at h
      · split at h
        · exact ih r h
        · split at h
          · injection h with h1
            subst h1
            refine ⟨?_, takeWhile_all_self _ t⟩
            assumption
          · exact ih r h
      · exact ih r h
    · exact ih r h

/-- A successful URL-regex match starts with its scheme, hence is non-empty. -/
theorem urlSearch_ne_nil : ∀ (l r : List Char), urlSearch l = some r → r ≠ [] := by
  intro l
  induction l with
  | nil => intro r h; simp [urlSearch] at h
  | cons c t ih =>
    intro r h
    simp only [urlSearch] at h
    split at h
    · split at h
      · exact ih r h
      · injection h with h1; subst h1; simp
    · split at h
      · split at h
        · exact ih r h
        · injection h with h1; subst h1; simp
      · exact ih r h

/-- A string that starts with `http` is non-empty. -/
theorem strStarts_http_ne (v : String) : strStarts v "http" = true → v ≠ "" := by
  intro h hv
  rw [hv] at h
  exact absurd h (by decide)

/-- Prefixing `https://` always produces a non-empty string. -/
theorem https_append_ne (v : String) : "https://" ++ v ≠ "" := by
  obtain ⟨d⟩ := v
  intro h
  have h2 : ("https://" ++ String.mk d).data = "".data := congrArg String.data h
  simp [String.data] at h2

/-- A scheme-completed URL is never empty. -/
theorem withScheme_ne (url : String) : withScheme url ≠ "" := by
  unfold withScheme
  split
  · exact strStarts_http_ne _ (by assumption)
  · exact https_append_ne _

/-- One keyword iteration yields a non-empty URL when it yields one. -/
theorem kwUrl_ne (s kw u : String) : kwUrl s kw = some u → u ≠ "" := by
  unfold kwUrl
  split
  · intro h
    injection h with h1
    subst h1
    exact withScheme_ne _
  · intro h
    simp at h

/-- The keyword-split URL is always non-empty when it exists. -/
theorem navKwSplit_ne (s u : String) : navKwSplit s = some u → u ≠ "" := by
  unfold navKwSplit
  simp only [List.findSome?]
  cases h1 : kwUrl s "to" with
  | some b =>
    intro h
    injection h with h2
    subst h2
    exact kwUrl_ne s "to" _ h1
  | none =>
    cases h2 : kwUrl s "visit" with
    | some b =>
      intro h
      injection h with h3
      subst h3
      exact kwUrl_ne s "visit" _ h2
    | none =>
      cases h3 : kwUrl s "open" with
      | some b =>
        intro h
        injection h with h4
        subst h4
        exact kwUrl_ne s "open" _ h3
      | none =>
        intro h
        simp at h

/-- The navigation tail always records exactly the one `goto` effect. -/
theorem navGoto_snd (p : Page) (u : String) : (navGoto p u).2 = [Effect.goto u] := by
  unfold navGoto
  cases p.gotoResult u <;> rfl

/-- The source's dispatch chain computes exactly the spec's first-match-wins
ordered rule list. -/
theorem classify_eq_spec : ∀ (s : String), classify s = classifySpec s := by
  intro s
  unfold classify classifySpec rulesSpec
  simp only [List.findSome?]
  by_cases h1 : navTest (step_lower_of s) = true
  · simp [h1]
  simp [h1]
  by_cases h2 : clickTest (step_lower_of s) = true
  · simp [h2]
  simp [h2]
  by_cases h3 : inputTest (step_lower_of s) = true
  · simp [h3]
  simp [h3]
  by_cases h4 : selectTest (step_lower_of s) = true
  · simp [h4]
  simp [h4]
  by_cases h5 : waitTest (step_lower_of s) = true
  · simp [h5]
  simp [h5]
  by_cases h6 : verifyTest (step_lower_of s) = true
  · simp [h6]
  simp [h6]
  by_cases h7 : strContains (step_lower_of s) "scroll" = true
  · simp [h7]
  simp [h7]
  by_cases h8 : strContains (step_lower_of s) "hover" = true
  · simp [h8]
  simp [h8]

/-- The source's sequential-return extractor computes exactly the spec's
first-non-empty-of-five-strategies function. -/
theorem extract_eq_spec : ∀ (s : String), extract_selector s = extractLocatorSpec s := by
  intro s
  unfold extract_selector extractLocatorSpec locatorStrategies
  simp only [List.findSome?]
  cases hq : firstQuotedS s with
  | some t => simp
  | none =>
    simp only [Option.map_none]
    cases ht : typedStrategy s with
    | some r => simp
    | none =>
      cases hh : hashStrategy s with
      | some idr => simp
      | none =>
        simp only [Option.map_none]
        cases hc : classStrategy s with
        | some cls => simp
        | none =>
          simp only [Option.map_none]
          cases hp : prepStrategy s with
          | some r => simp
          | none => simp

/-- The source's two-phase element lookup computes exactly the spec's
ordered strategy list with errors treated as non-matches. -/
theorem find_eq_resolve : ∀ (p : Page) (sel : String),
    find_element p sel = resolveSpec p sel := by
  intro p sel
  unfold find_element resolveSpec
  simp only [List.findSome?]
  cases hq : p.query sel with
  | ok l =>
    cases l with
    | nil =>
      simp only [tryQuery, hq]
      split
      · simp [List.findSome?]
      · rfl
    | cons e t =>
      simp [tryQuery, hq]
  | error e =>
    simp only [tryQuery, hq]
    split
    · simp [List.findSome?]
    · rfl

/-- A successful URL-regex match is a non-empty string. -/
theorem urlSearchS_ne (s u : String) : urlSearchS s = some u → u ≠ "" := by
  unfold urlSearchS
  cases hr : urlSearch s.toList with
  | none => intro h; simp at h
  | some r =>
    intro h
    have h' : some (String.mk r) = some u := h
    injection h' with h1
    subst h1
    intro hempty
    exact urlSearch_ne_nil s.toList r hr (congrArg String.data hempty)

/-- Claim C1 (code_bug evidence): at the step `Wait until ready` — a step
classified as Wait that has neither an extractable locator nor a duration
pattern — `execute_step` returns Python `None` instead of a result
dictionary, so it does not return an `ExecutionResult`. -/
theorem claimC1_wait_none : execute_step emptyPage "Wait until ready" = (none, []) := by rfl

/-- Claim C2, as literally stated, is false: this step contains both a
click keyword and a verify keyword, yet it is classified `navigate`
because the navigation rule fires first on its `go to`. -/
theorem claimC2_counterexample :
    clickTest (step_lower_of cvStep) = true ∧
    verifyTest (step_lower_of cvStep) = true ∧
    classify cvStep ≠ ActionKind.click ∧
    classify cvStep = ActionKind.navigate :=
  ⟨by rfl, by rfl, by decide, by rfl⟩

/-- Claim C2 (amended): classification applies the keyword rules in the
fixed order navigate → click → input → select → wait → verify → scroll →
hover → Unrecognized with first-match-wins semantics, and every step that
contains both a click keyword and a verify keyword *and no navigation
keyword* is classified Click. -/
theorem claimC2 :
    (∀ (s : String), classify s = classifySpec s)
    ∧ (∀ (s : String),
        navTest (step_lower_of s) = false →
        clickTest (step_lower_of s) = true →
        verifyTest (step_lower_of s) = true →
        classify s = ActionKind.click) := by
  refine ⟨classify_eq_spec, ?_⟩
  intro s h1 h2 h3
  unfold classify
  simp [h1, h2]

/-- Witness for claim C2 at a concrete click-and-verify step. -/
theorem claimC2_witness :
    navTest (step_lower_of "Click the \"Submit\" button and verify the banner") = false ∧
    classify "Click the \"Submit\" button and verify the banner" = ActionKind.click :=
  ⟨by rfl, claimC2.2 "Click the \"Submit\" button and verify the banner" (by rfl) (by rfl) (by rfl)⟩

/-- Claim C3, as literally stated, is false: the step `Wait 2 seconds`
contains no `wait for`/`wait until` keyword, so the interpreter rejects it
as unparseable and sleeps for nothing, instead of sleeping 2000 ms. -/
theorem claimC3_counterexample :
    execute_step emptyPage "Wait 2 seconds" =
      (some ⟨false, "Unable to parse step: Wait 2 seconds", none⟩, []) := by rfl

/-- Claim C3 (amended): for a step handled as Wait with no extractable
locator and a duration match, the interpreter sleeps for the duration —
milliseconds verbatim, seconds times 1000 — and reports success echoing
the literal duration with no evidence; in particular `Wait for 2 seconds`
sleeps 2000 ms and `Wait for 500 ms` sleeps 500 ms (the bare step
`Wait 2 seconds` is not classified as Wait). -/
theorem claimC3 :
    (∀ (p : Page) (step : String) (d : Nat) (u : String),
      extract_selector step = "" →
      timeSearchS (lowerStr step) = some (d, u) →
      handle_wait p step =
        (some ⟨true, "Waited for " ++ toString d ++ " " ++ u, none⟩,
         [Effect.sleep (if strContains u "ms" || strContains u "millisecond" then d
                        else d * 1000)]))
    ∧ execute_step emptyPage "Wait for 2 seconds" =
        (some ⟨true, "Waited for 2 second", none⟩, [Effect.sleep 2000])
    ∧ execute_step emptyPage "Wait for 500 ms" =
        (some ⟨true, "Waited for 500 ms", none⟩, [Effect.sleep 500]) := by
  refine ⟨?_, by rfl, by rfl⟩
  intro p step d u hsel htime
  unfold handle_wait
  rw [if_pos hsel, htime]

/-- Witness for claim C3 at the step `Wait for 2 seconds`. -/
theorem claimC3_witness :
    handle_wait emptyPage "Wait for 2 seconds" =
      (some ⟨true, "Waited for 2 second", none⟩,
       [Effect.sleep (if strContains "second" "ms" || strContains "second" "millisecond" then 2
                      else 2 * 1000)]) :=
  claimC3.1 emptyPage "Wait for 2 seconds" 2 "second" (by rfl) (by rfl)

/-- Claim C4: locator extraction tries its five strategies in strict order
returning the first non-empty result (empty when none applies), every step
with a quoted substring yields the text-match locator on that literal, and
`Click on the "Submit" button` yields `text=Submit`. -/
theorem claimC4 :
    (∀ (s : String), extract_selector s = extractLocatorSpec s)
    ∧ (∀ (s t : String), firstQuotedS s = some t → extract_selector s = "text=" ++ t)
    ∧ extract_selector "Click on the \"Submit\" button" = "text=Submit" := by
  refine ⟨extract_eq_spec, ?_, by rfl⟩
  intro s t h
  unfold extract_selector
  rw [h]

/-- Witness for claim C4 at the Submit step. -/
theorem claimC4_witness :
    extract_selector "Click on the \"Submit\" button" = "text=" ++ "Submit" :=
  claimC4.2.1 "Click on the \"Submit\" button" "Submit" (by rfl)

/-- Claim C5: for a select-classified step with an extractable locator, an
exception raised by the dropdown-selection operation is caught and reported
as a select-specific failure preserving the original error message, with
evidence, rather than reaching the generic top-level handler. -/
theorem claimC5 : ∀ (p : Page) (step e : String),
    classify step = ActionKind.select →
    extract_selector step ≠ "" →
    p.selectOption (extract_selector step) ((firstQuotedS step).getD "") = .error e →
    execute_step p step =
      (some ⟨false, "Could not select option: " ++ e, some p.shot⟩, []) := by
  intro p step e hc hsel herr
  unfold execute_step
  rw [hc]
  unfold handle_select
  rw [if_neg hsel, herr]

/-- Witness for claim C5 at a concrete failing dropdown selection. -/
theorem claimC5_witness :
    execute_step failSelectPage "Select \"US\" from the country dropdown" =
      (some ⟨false, "Could not select option: Timeout 30000ms exceeded",
        some failSelectPage.shot⟩, []) :=
  claimC5 failSelectPage "Select \"US\" from the country dropdown" "Timeout 30000ms exceeded"
    (by rfl) (by decide) (by rfl)

/-- Claim C6: for a visibility-verification step (mentioning
visible/displayed/shown, with an extractable locator), the result succeeds
iff the element's visibility XOR the presence of a negation word holds,
an unresolvable locator counting as not visible; with the element absent,
`Verify "Error" is not visible` succeeds and `Verify "Error" is visible`
fails. -/
theorem claimC6 :
    (∀ (p : Page) (step : String),
      visModeIn (lowerStr step) = true →
      extract_selector step ≠ "" →
      (handle_verification p step).success =
        (visibleOf (find_element p (extract_selector step)) ^^ negWordIn (lowerStr step)))
    ∧ execute_step emptyPage "Verify \"Error\" is not visible" =
        (some ⟨true, "Verified text=Error visibility", some emptyPage.shot⟩, [])
    ∧ execute_step emptyPage "Verify \"Error\" is visible" =
        (some ⟨false, "Verification failed for text=Error visibility", some emptyPage.shot⟩, []) := by
  refine ⟨?_, by rfl, by rfl⟩
  intro p step hv hsel
  unfold handle_verification
  simp only [hv, if_true]
  rw [if_neg hsel]
  cases hvb : visibleOf (find_element p (extract_selector step)) <;>
    cases hnb : negWordIn (lowerStr step) <;> simp [hvb, hnb]

/-- Witness for claim C6 at the absent-element negated step. -/
theorem claimC6_witness :
    visModeIn (lowerStr "Verify \"Error\" is not visible") = true ∧
    (handle_verification emptyPage "Verify \"Error\" is not visible").success =
      (visibleOf (find_element emptyPage (extract_selector "Verify \"Error\" is not visible")) ^^
        negWordIn (lowerStr "Verify \"Error\" is not visible")) :=
  ⟨by rfl, claimC6.1 emptyPage "Verify \"Error\" is not visible" (by rfl) (by decide)⟩

/-- Claim C7: for a text-content verification step (text sub-mode reached:
no visibility word, a contains/text/says word, an extractable locator, a
non-empty quoted expected text, and a resolvable element), the result
succeeds iff the expected text is a case-insensitive substring of the
element's text content, a null read counting as the empty string; the
actual text `Welcome, Bob` satisfies the expected `welcome`. -/
theorem claimC7 :
    (∀ (p : Page) (step : String) (el : Elem),
      visModeIn (lowerStr step) = false →
      textModeIn (lowerStr step) = true →
      extract_selector step ≠ "" →
      (firstQuotedS step).getD "" ≠ "" →
      find_element p (extract_selector step) = some el →
      (handle_verification p step).success =
        strContains (lowerStr (el.text.getD "")) (lowerStr ((firstQuotedS step).getD "")))
    ∧ execute_step welcomePage "Verify message text contains \"welcome\"" =
        (some ⟨true, "Verified text \"welcome\" in text=welcome", some welcomePage.shot⟩, []) := by
  refine ⟨?_, by rfl⟩
  intro p step el hv ht hsel hexp hel
  unfold handle_verification
  simp only [hv, ht, if_true, Bool.false_eq_true, if_false]
  rw [if_pos ⟨hsel, hexp⟩, hel]
  cases hc : strContains (lowerStr (el.text.getD "")) (lowerStr ((firstQuotedS step).getD "")) <;>
    simp [hc]

/-- Witness for claim C7 at the welcome-banner step. -/
theorem claimC7_witness :
    (handle_verification welcomePage "Verify message text contains \"welcome\"").success =
      strContains (lowerStr (welcomeElem.text.getD ""))
        (lowerStr ((firstQuotedS "Verify message text contains \"welcome\"").getD "")) :=
  claimC7.1 welcomePage "Verify message text contains \"welcome\"" welcomeElem
    (by rfl) (by rfl) (by decide) (by decide) (by rfl)

/-- Claim C8: navigation extracts the URL by the `http(s)://` regex, else by
splitting on `to`/`visit`/`open` and scheme-prefixing the remainder, and the
handler produces the URL-not-extractable failure iff neither method yields a
(necessarily non-empty) URL; whenever a URL is obtained it is navigated to. -/
theorem claimC8 : ∀ (p : Page) (step : String),
    ((handle_navigation p step =
        (.ok ⟨false, "Could not extract URL from: " ++ step, none⟩, []))
      ↔ (urlSearchS step = none ∧ navKwSplit step = none))
    ∧ (∀ u, urlSearchS step = some u →
        u ≠ "" ∧ (handle_navigation p step).2 = [Effect.goto u])
    ∧ (∀ u, urlSearchS step = none → navKwSplit step = some u →
        u ≠ "" ∧ (handle_navigation p step).2 = [Effect.goto u]) := by
  intro p step
  refine ⟨⟨?_, ?_⟩, ?_, ?_⟩
  · intro h
    cases hu : urlSearchS step with
    | some u =>
      exfalso
      unfold handle_navigation at h
      rw [hu] at h
      have h2 : (navGoto p u).2 = ([] : List Effect) := congrArg Prod.snd h
      rw [navGoto_snd] at h2
      simp at h2
    | none =>
      cases hk : navKwSplit step with
      | some u =>
        exfalso
        unfold handle_navigation at h
        rw [hu, hk] at h
        have h2 : (navGoto p u).2 = ([] : List Effect) := congrArg Prod.snd h
        rw [navGoto_snd] at h2
        simp at h2
      | none => exact ⟨rfl, rfl⟩
  · rintro ⟨hu, hk⟩
    unfold handle_navigation
    rw [hu, hk]
  · intro u hu
    refine ⟨urlSearchS_ne step u hu, ?_⟩
    unfold handle_navigation
    rw [hu]
    exact navGoto_snd p u
  · intro u hu hk
    refine ⟨navKwSplit_ne step u hk, ?_⟩
    unfold handle_navigation
    rw [hu, hk]
    exact navGoto_snd p u

/-- Witness for claim C8 at the keyword-extracted step `go to example.com`. -/
theorem claimC8_witness :
    "https://example.com" ≠ "" ∧
    (handle_navigation emptyPage "go to example.com").2 = [Effect.goto "https://example.com"] :=
  (claimC8 emptyPage "go to example.com").2.2 "https://example.com" (by rfl) (by rfl)

/-- Claim C9: element resolution equals the spec's strategy list — the
verbatim query first, then, exactly for locators free of `#`/`.`/`[`/`>`/
space, the six ordered text fallbacks — returning the first strategy with a
match, `none` when all yield zero matches, with per-strategy errors
swallowed as non-matches (on `flakyPage` the verbatim query raises and the
button fallback still wins; on `emptyPage` everything yields zero and the
result is `none`). -/
theorem claimC9 :
    (∀ (p : Page) (sel : String), find_element p sel = resolveSpec p sel)
    ∧ find_element flakyPage "Save" = some saveElem
    ∧ find_element emptyPage "Save" = none :=
  ⟨find_eq_resolve, by rfl, by rfl⟩

/-- Claim C10: the shared quoted-literal pattern never yields a literal
containing a quote character of either kind, accepts mismatched opening and
closing quotes, and truncates a value at an embedded quote of the other
kind — entering `"it's"` extracts and fills only `it`. -/
theorem claimC10 :
    (∀ (s t : String), firstQuotedS s = some t →
      t ≠ "" ∧ t.toList.all (fun c => !isQuoteCh c) = true)
    ∧ firstQuotedS mixedQuoteStep = some "Save"
    ∧ execute_step welcomePage apostropheStep =
        (some ⟨true, "Entered \"it\" into text=it", some welcomePage.shot⟩, []) := by
  refine ⟨?_, by rfl, by rfl⟩
  intro s t h
  unfold firstQuotedS at h
  cases hr : firstQuoted s.toList with
  | none => rw [hr] at h; simp at h
  | some r =>
    rw [hr] at h
    have h' : some (String.mk r) = some t := h
    injection h' with h1
    subst h1
    obtain ⟨hne, hall⟩ := firstQuoted_sound s.toList r hr
    exact ⟨fun hempty => hne (congrArg String.data hempty), hall⟩

/-- Witness for claim C10 at the truncated apostrophe step. -/
theorem claimC10_witness :
    ("it" : String) ≠ "" ∧ ("it" : String).toList.all (fun c => !isQuoteCh c) = true :=
  claimC10.1 apostropheStep "it" (by rfl)
